import Mathlib

/-!
# Verification of the maxi-agent orchestrator and credential service

Shallow embedding of the TypeScript sources:
* `src/unnamed/part_001` — `Pow3rPassService` (credential cache, `getCredential`);
* `src/workers/orchestrator/worker.ts` — the edge worker: route dispatch,
  `handleChat`, `synthesizeVoice`, `searchKnowledge`, config handlers.

External HTTP calls (credential service, LLM, TTS, embedding model, vector
index) and nondeterministic inputs (clock, `crypto.randomUUID`) are modelled
as explicit outcome parameters ("oracles"); the key-value store is explicit
state.  Timestamps (`Date.now()`, `toISOString()`) are modelled as natural
numbers of epoch milliseconds — ISO-8601 UTC strings compare
lexicographically consistently with the underlying instants.
-/

/-- JavaScript truthiness of a `string | null | undefined` value:
`null`, `undefined` and the empty string are falsy. -/
def jsFalsy : Option String → Bool
  | none => true
  | some s => s == ""

/-- JavaScript `a || b` on `string | null | undefined` values. -/
def jsOrOpt (a b : Option String) : Option String :=
  match a with
  | some s => if s == "" then b else some s
  | none => b

/-- JavaScript `a || d` where `d` is a string literal default
(e.g. `env.AGENT_NAME || 'Maxi'`). -/
def jsOrS (a : Option String) (d : String) : String :=
  match a with
  | some s => if s == "" then d else s
  | none => d

/-- JavaScript template-literal interpolation of a `string | undefined`
value: `undefined` renders as the literal text `undefined`. -/
def jsInterp : Option String → String
  | some s => s
  | none => "undefined"

/-- JavaScript `a || d` on numbers (`limit || 5`): `undefined` and `0` are
falsy. -/
def jsOrNat (a : Option Nat) (d : Nat) : Nat :=
  match a with
  | some n => if n == 0 then d else n
  | none => d

/-! ## Pow3r Pass credential service (`src/unnamed/part_001`)

`Pow3rPassService` keeps `private cache: Map<string, { token, expiresAt }>`.
The `Map` is modelled as an association list with replace-on-set. -/

/-- One cache entry: `{ token: string; expiresAt: number }`. -/
structure CredCacheEntry where
  token : String
  expiresAt : Nat
  deriving Repr, DecidableEq

/-- The credential cache, keyed by provider name. -/
abbrev CredCache := List (String × CredCacheEntry)

/-- `Map.set`: replace the entry for the key if present, else add it. -/
def credCacheSet : CredCache → String → CredCacheEntry → CredCache
  | [], k, v => [(k, v)]
  | (k', v') :: rest, k, v =>
    if k' == k then (k, v) :: rest else (k', v') :: credCacheSet rest k v

/-- Outcome of the upstream `fetch` to
`https://config.superbots.link/pass/credentials/{provider}`:
the request may reject at the network level, the body may fail to parse,
the status may be non-2xx (`!response.ok`), or a credential body
`{ token, provider, expiresAt? }` is returned.  `expiresAt`, when present,
is the parsed `new Date(data.expiresAt).getTime()` in epoch milliseconds. -/
inductive CredFetchOutcome where
  | netError
  | malformed
  | httpError (status : Nat)
  | ok (token : String) (expiresAt : Option Nat)
  deriving Repr, DecidableEq

/-- Is the fetch outcome a failure (anything but a parsed 2xx body)? -/
def credFetchFailed : CredFetchOutcome → Bool
  | .ok _ _ => false
  | _ => true

/-- The fetch-and-cache path of `getCredential` (the `try` block entered on a
cache miss): non-ok status or any thrown error yields `null` and leaves the
cache unchanged; a parsed body is cached with the provider-supplied expiry or
else `Date.now() + 5 * 60 * 1000`.  The third component records that an
upstream request was issued. -/
def getCredentialFetch (cache : CredCache) (provider : String) (now : Nat) :
    CredFetchOutcome → Option String × CredCache × Bool
  | .netError => (none, cache, true)
  | .malformed => (none, cache, true)
  | .httpError _ => (none, cache, true)
  | .ok token exp =>
    let expiresAt := exp.getD (now + 5 * 60 * 1000)
    (some token, credCacheSet cache provider ⟨token, expiresAt⟩, true)

/-- `Pow3rPassService.getCredential`: cache hit iff an entry exists with
`expiresAt > Date.now()`; otherwise fetch upstream.  Returns the resulting
token (or `null`), the updated cache, and whether an upstream request was
issued. -/
def getCredential (cache : CredCache) (provider : String) (now : Nat)
    (fetch : CredFetchOutcome) : Option String × CredCache × Bool :=
  match List.lookup provider cache with
  | some e =>
    if now < e.expiresAt then (some e.token, cache, false)
    else getCredentialFetch cache provider now fetch
  | none => getCredentialFetch cache provider now fetch

/-- No unexpired cache entry for `provider` at time `now`. -/
def credCacheMiss (cache : CredCache) (provider : String) (now : Nat) : Bool :=
  match List.lookup provider cache with
  | some e => decide (e.expiresAt ≤ now)
  | none => true

theorem lookup_credCacheSet (cache : CredCache) (k : String) (v : CredCacheEntry) :
    List.lookup k (credCacheSet cache k v) = some v := by
  induction cache with
  | nil => simp [credCacheSet, List.lookup]
  | cons hd tl ih =>
    obtain ⟨k', v'⟩ := hd
    by_cases h : k' == k
    · simp [credCacheSet, h, List.lookup]
    · simp only [credCacheSet, h, if_false, Bool.false_eq_true, List.lookup]
      have h' : (k == k') = false := by
        cases hk : k == k' with
        | false => rfl
        | true =>
          exact absurd (by simpa using (eq_of_beq hk).symm) (by simpa using h)
      simp [h', ih]

/-- C1: `getCredential` returns the cached token without an upstream request
whenever an unexpired entry exists; otherwise it issues exactly one upstream
fetch, caches a returned token with the provider-supplied expiry or else the
5-minute default TTL, returns the token, and returns `null` on any fetch
failure (network error, non-2xx status, malformed body) without throwing.
Consequently a token fetched at `now` (with no provider expiry) is served
from cache, with no new upstream request, at any `t1 < now + 300000`, and a
call at any `t2 ≥ now + 300000` issues a new upstream request. -/
theorem getCredential_cache_spec (cache : CredCache) (provider : String)
    (now : Nat) (fetch : CredFetchOutcome) :
    (∀ e, List.lookup provider cache = some e → now < e.expiresAt →
        getCredential cache provider now fetch = (some e.token, cache, false)) ∧
    (credCacheMiss cache provider now = true →
        (getCredential cache provider now fetch).2.2 = true ∧
        (∀ token exp, fetch = .ok token exp →
            getCredential cache provider now fetch =
              (some token,
               credCacheSet cache provider ⟨token, exp.getD (now + 5 * 60 * 1000)⟩,
               true)) ∧
        (credFetchFailed fetch = true →
            (getCredential cache provider now fetch).1 = none ∧
            (getCredential cache provider now fetch).2.1 = cache)) ∧
    (∀ token t1 fetch2, credCacheMiss cache provider now = true →
        t1 < now + 5 * 60 * 1000 →
        getCredential (getCredential cache provider now (.ok token none)).2.1
            provider t1 fetch2
          = (some token,
             (getCredential cache provider now (.ok token none)).2.1, false)) ∧
    (∀ token t2 fetch2, credCacheMiss cache provider now = true →
        now + 5 * 60 * 1000 ≤ t2 →
        (getCredential (getCredential cache provider now (.ok token none)).2.1
            provider t2 fetch2).2.2 = true) := by
  have hmiss : credCacheMiss cache provider now = true →
      getCredential cache provider now fetch =
        getCredentialFetch cache provider now fetch := by
    intro h
    unfold getCredential
    unfold credCacheMiss at h
    cases hl : List.lookup provider cache with
    | none => simp
    | some e =>
      rw [hl] at h
      simp only [decide_eq_true_eq] at h
      simp [Nat.not_lt_of_le h]
  have hmissAny : ∀ f, credCacheMiss cache provider now = true →
      getCredential cache provider now f =
        getCredentialFetch cache provider now f := by
    intro f h
    unfold getCredential
    unfold credCacheMiss at h
    cases hl : List.lookup provider cache with
    | none => simp
    | some e =>
      rw [hl] at h
      simp only [decide_eq_true_eq] at h
      simp [Nat.not_lt_of_le h]
  refine ⟨?_, ?_, ?_, ?_⟩
  · intro e hl hlt
    unfold getCredential
    rw [hl]
    simp [hlt]
  · intro h
    rw [hmiss h]
    refine ⟨?_, ?_, ?_⟩
    · cases fetch <;> simp [getCredentialFetch]
    · intro token exp hf
      subst hf
      simp [getCredentialFetch]
    · intro hfail
      cases fetch <;> simp_all [getCredentialFetch, credFetchFailed]
  · intro token t1 fetch2 h ht
    rw [hmissAny _ h]
    simp only [getCredentialFetch, Option.getD_none]
    unfold getCredential
    rw [lookup_credCacheSet]
    simp [ht]
  · intro token t2 fetch2 h ht
    rw [hmissAny _ h]
    simp only [getCredentialFetch, Option.getD_none]
    unfold getCredential
    rw [lookup_credCacheSet]
    have : ¬ t2 < now + 5 * 60 * 1000 := Nat.not_lt_of_le ht
    simp only [this, if_false]
    cases fetch2 <;> simp [getCredentialFetch]

/-- Witness for C1 at concrete inputs: empty cache, provider `"xai"`,
`now = 0`, a successful fetch of `"tok"` with no provider expiry; cache-hit
clause checked at time `100` on the resulting cache. -/
theorem getCredential_cache_spec_witness :
    getCredential [] "xai" 0 (.ok "tok" none)
      = (some "tok", [("xai", ⟨"tok", 300000⟩)], true) ∧
    getCredential [("xai", ⟨"tok", 300000⟩)] "xai" 100 .netError
      = (some "tok", [("xai", ⟨"tok", 300000⟩)], false) ∧
    (getCredential [("xai", ⟨"tok", 300000⟩)] "xai" 300000 .netError).2.2
      = true := by
  refine ⟨?_, ?_, ?_⟩
  · have h := (getCredential_cache_spec [] "xai" 0 (.ok "tok" none)).2.1
      (by decide)
    exact h.2.1 "tok" none rfl
  · exact (getCredential_cache_spec [("xai", ⟨"tok", 300000⟩)] "xai" 100
      CredFetchOutcome.netError).1 ⟨"tok", 300000⟩ (by decide) (by decide)
  · exact ((getCredential_cache_spec [("xai", ⟨"tok", 300000⟩)] "xai" 300000
      CredFetchOutcome.netError).2.1 (by decide)).1

/-! ## Orchestrator worker (`src/workers/orchestrator/worker.ts`) -/

/-- The worker environment bindings that carry configuration strings
(`Env` in `worker.ts`).  Secrets and names are `string | undefined`. -/
structure WEnv where
  xaiApiKey : Option String
  elevenLabsApiKey : Option String
  agentName : Option String
  llmProvider : Option String
  llmModel : Option String
  ttsProvider : Option String
  deriving Repr, DecidableEq

/-- `AgentConfig.persona`. -/
structure Persona where
  name : String
  role : String
  systemPrompt : String
  greeting : String
  deriving Repr, DecidableEq

/-- `AgentConfig.voice`. -/
structure VoiceSettings where
  enabled : Bool
  ttsProvider : String
  deriving Repr, DecidableEq

/-- `AgentConfig.capabilities.llm`. -/
structure LlmCapability where
  provider : String
  model : String
  deriving Repr, DecidableEq

/-- `AgentConfig.capabilities`. -/
structure Capabilities where
  llm : LlmCapability
  deriving Repr, DecidableEq

/-- `AgentConfig`; `lastUpdated` is the `toISOString()` timestamp, modelled
as epoch milliseconds. -/
structure AgentConfig where
  agentId : String
  version : String
  persona : Persona
  voice : VoiceSettings
  capabilities : Capabilities
  lastUpdated : Nat
  deriving Repr, DecidableEq

/-- The `AGENT_STORE` KV namespace, restricted to the keys the worker
touches: `agent-config`, `stats:sessions`, `stats:messages`; plus the `R2`
`ASSETS` bucket as a list of `(key, payload)` writes.  Knowledge texts
(`knowledge:{id}`) live in the same namespace but are read through a
possibly-failing lookup oracle (see `ExtOracles.kvText`), since claim C3
treats store unavailability as an external condition. -/
structure Store where
  agentConfig : Option AgentConfig
  statsSessions : Option String
  statsMessages : Option String
  assets : List (String × String)
  deriving Repr, DecidableEq

/-- `getDefaultConfig(env)` evaluated at time `now`. -/
def getDefaultConfig (env : WEnv) (now : Nat) : AgentConfig :=
  { agentId := "maxi"
    version := "1.0.0"
    persona :=
      { name := jsOrS env.agentName "Maxi"
        role := "Wellness Coach"
        systemPrompt := "You are Maxi, a compassionate wellness coach specializing in mental health, psychology, relationships, dating, self-improvement, power dynamics, decision making, and behavior change. You combine warmth with directness - you are supportive but also honest."
        greeting := "Hey there! I'm Maxi, your wellness coach. I'm here to help you navigate relationships, mental health, and personal growth. What's on your mind today?" }
    voice := { enabled := true, ttsProvider := "elevenlabs" }
    capabilities :=
      { llm := { provider := jsOrS env.llmProvider "xai"
                 model := jsOrS env.llmModel "grok-2" } }
    lastUpdated := now }

/-- One match returned by `VECTORS.query`: `{ id, score }`.  The floating
point score is passed through the worker untouched; it is modelled as an
integer since no logic inspects its value. -/
structure VecMatch where
  id : String
  score : Int
  deriving Repr, DecidableEq

/-- One element of a `searchKnowledge` result: `{ id, text, score }`. -/
structure KnowledgeChunk where
  id : String
  text : String
  score : Int
  deriving Repr, DecidableEq

/-- Outcome of the `callLLM` upstream request: network rejection (with the
thrown error's message), non-2xx status, or a parsed body whose
`choices[0].message.content` and `usage.total_tokens` may each be absent. -/
inductive LlmOutcome where
  | netError (msg : String)
  | non2xx (status : Nat)
  | ok (content : Option String) (tokensUsed : Option Nat)
  deriving Repr, DecidableEq

/-- Outcome of the ElevenLabs TTS upstream request; `ok` carries the raw
audio bytes (modelled as an abstract string payload). -/
inductive TtsOutcome where
  | netError (msg : String)
  | non2xx (status : Nat)
  | ok (audio : String)
  deriving Repr, DecidableEq

/-- All external interactions a single worker request may consume:
* `embed` — the `env.AI.run` embedding call (throws or succeeds);
* `vecQuery` — the `env.VECTORS.query` similarity query;
* `kvText` — lookup of `knowledge:{id}` texts, which may fail (store
  unavailable) or return `null`;
* `pow3r` — `fetchPow3rPassCredential(provider)`, which returns a token or
  `null` (its own failures are swallowed inside it);
* `llm`, `tts` — the LLM and TTS upstream outcomes. -/
structure ExtOracles where
  embed : Except String Unit
  vecQuery : Except String (List VecMatch)
  kvText : String → Except String (Option String)
  pow3r : String → Option String
  llm : LlmOutcome
  tts : TtsOutcome

/-- The per-match KV lookup in `searchKnowledge`:
`{ id: match.id, text: text || '', score: match.score }`. -/
def lookupChunk (kvText : String → Except String (Option String))
    (m : VecMatch) : Except String KnowledgeChunk :=
  (kvText m.id).map fun t => ⟨m.id, t.getD "", m.score⟩

/-- The `Promise.all` over the per-match lookups: rejects iff any single
lookup rejects, succeeds with the chunk list otherwise. -/
def lookupChunks (kvText : String → Except String (Option String)) :
    List VecMatch → Except String (List KnowledgeChunk)
  | [] => .ok []
  | m :: ms =>
    match lookupChunk kvText m with
    | .error e => .error e
    | .ok c =>
      match lookupChunks kvText ms with
      | .error e => .error e
      | .ok cs => .ok (c :: cs)

/-- `searchKnowledge(query, env, limit)`: embed the query, run the top-K
similarity query, join each match id against the KV text store, and keep
only chunks with truthy (non-empty) text; any exception in the `try` block
yields `[]`.  The `limit` is the `topK` passed to the external vector index;
its effect lives entirely in the `vecQuery` oracle. -/
def searchKnowledge (embed : Except String Unit)
    (vecQuery : Except String (List VecMatch))
    (kvText : String → Except String (Option String)) (limit : Nat) :
    List KnowledgeChunk :=
  match embed with
  | .error _ => []
  | .ok _ =>
    match vecQuery with
    | .error _ => []
    | .ok ms =>
      match lookupChunks kvText ms with
      | .error _ => []
      | .ok chunks => chunks.filter fun k => k.text ≠ ""

/-- `callLLM`: throws `LLM API error: {status}` on a non-2xx response,
propagates a network rejection, and otherwise returns
`{ text: content || '', tokensUsed }`.  The message list is what the worker
posts to the provider; the outcome oracle abstracts the provider itself. -/
def callLLM (messages : List (String × String)) (o : LlmOutcome) :
    Except String (String × Option Nat) :=
  match o with
  | .netError msg => .error msg
  | .non2xx status => .error ("LLM API error: " ++ toString status)
  | .ok content tokensUsed => .ok (content.getD "", tokensUsed)

/-- `synthesizeVoice(text, env, voiceId?)`: resolves the ElevenLabs key from
`env.ELEVENLABS_API_KEY || fetchPow3rPassCredential('elevenlabs')`, throws
`No ElevenLabs API key configured` when none is truthy, throws
`ElevenLabs API error: {status}` on a non-2xx response, and otherwise
returns the audio bytes.  (The `voiceId || 'EXAVITQu4vr4xnSDxMaL'` default
only selects the upstream URL and is absorbed by the outcome oracle.) -/
def synthesizeVoice (env : WEnv) (pow3rEleven : Option String)
    (o : TtsOutcome) : Except String String :=
  if jsFalsy (jsOrOpt env.elevenLabsApiKey pow3rEleven) then
    .error "No ElevenLabs API key configured"
  else
    match o with
    | .netError msg => .error msg
    | .non2xx status => .error ("ElevenLabs API error: " ++ toString status)
    | .ok audio => .ok audio

/-- `parseInt(x)` applied to a stored counter, with the `raw ? parseInt(raw)
: 0` guard; non-numeric strings (which would give `NaN`) are mapped to `0`,
a case no claim depends on. -/
def parseStat (raw : Option String) : Nat :=
  match raw with
  | some s => (s.toNat?).getD 0
  | none => 0

/-- `incrementStat(env, 'messages')`. -/
def incrementStat (store : Store) : Store :=
  { store with
    statsMessages := some (toString (parseStat store.statsMessages + 1)) }

/-- The parsed body of a `POST /chat` request. -/
structure ChatRequest where
  message : String
  sessionId : Option String
  includeVoice : Bool
  deriving Repr, DecidableEq

/-- Chat response metadata. -/
structure ChatMetadata where
  model : String
  tokensUsed : Nat
  retrievalCount : Nat
  deriving Repr, DecidableEq

/-- The body of a `POST /chat` response. -/
structure ChatResponse where
  text : String
  audioUrl : Option String
  sessionId : String
  metadata : ChatMetadata
  deriving Repr, DecidableEq

/-- The LLM message list built by `handleChat`: system prompt, the knowledge
context (only when non-empty), and the user message. -/
def chatMessages (systemPrompt context message : String) :
    List (String × String) :=
  [("system", systemPrompt)]
    ++ (if context ≠ "" then [("system", "Relevant knowledge:\n" ++ context)]
        else [])
    ++ [("user", message)]

/-- The voice branch of `handleChat`: when the request asked for voice and
the config enables it, try `synthesizeVoice`; on success store the audio
blob under `audio/{sessionId}/{now}.mp3` and expose `/assets/{key}`; on any
thrown error, log a warning and continue with no `audioUrl` (the failure is
swallowed, not rethrown). -/
def chatVoiceStep (cond : Bool) (env : WEnv) (pow3rEleven : Option String)
    (tts : TtsOutcome) (sessionId : String) (now : Nat) (store1 : Store) :
    Option String × Store :=
  if cond then
    match synthesizeVoice env pow3rEleven tts with
    | .ok audio =>
      let audioKey := "audio/" ++ sessionId ++ "/" ++ toString now ++ ".mp3"
      (some ("/assets/" ++ audioKey),
       { store1 with assets := store1.assets ++ [(audioKey, audio)] })
    | .error _ => (none, store1)
  else (none, store1)

/-- `handleChat(request, env, ctx)` at time `now`, with `uuid` the value
`crypto.randomUUID()` would produce.  Returns the response and the updated
store, or the thrown error's message.  In every throwing path (missing API
key, LLM failure) no store write has happened yet, so a thrown error leaves
the store as it was. -/
def handleChat (req : ChatRequest) (env : WEnv) (store : Store) (now : Nat)
    (uuid : String) (o : ExtOracles) : Except String (ChatResponse × Store) :=
  let sessionId := jsOrS req.sessionId uuid
  let knowledge := searchKnowledge o.embed o.vecQuery o.kvText 5
  let context := String.intercalate "\n\n" (knowledge.map fun k => k.text)
  let config := (store.agentConfig).getD (getDefaultConfig env now)
  let systemPrompt :=
    if config.persona.systemPrompt ≠ "" then config.persona.systemPrompt
    else "You are " ++ jsInterp env.agentName ++ ", a wellness coach."
  if jsFalsy (jsOrOpt env.xaiApiKey (o.pow3r "xai")) then
    .error "No API key configured. Please add XAI_API_KEY via Pow3r Pass."
  else
    match callLLM (chatMessages systemPrompt context req.message) o.llm with
    | .error e => .error e
    | .ok (text, tokensUsed) =>
      let store1 := incrementStat store
      let voiceStep :=
        chatVoiceStep (req.includeVoice && config.voice.enabled) env
          (o.pow3r "elevenlabs") o.tts sessionId now store1
      .ok
        ({ text := text
           audioUrl := voiceStep.1
           sessionId := sessionId
           metadata :=
             { model := jsOrS env.llmModel "grok-2"
               tokensUsed := tokensUsed.getD 0
               retrievalCount := knowledge.length } }, voiceStep.2)

/-- The route a request is dispatched to, following the worker's `fetch`
handler in source order.  Note which guards check the method: `OPTIONS`
(preflight) is matched before anything else; `/health`, `/`, `/status` and
the `/pow3r-pass/` prefix match ANY method; `/chat`, `/voice`, `/search`,
`/mcp` require `POST`; `/config` requires `GET` or `PUT`. -/
inductive RouteTarget where
  | preflight
  | health
  | chat
  | voice
  | search
  | configGet
  | configPut
  | status
  | mcp
  | pow3rPass
  | notFound
  deriving Repr, DecidableEq

/-- The dispatch of `fetch(request, env, ctx)` on path and method. -/
def dispatch (path method : String) : RouteTarget :=
  if method = "OPTIONS" then .preflight
  else if path = "/health" ∨ path = "/" then .health
  else if path = "/chat" ∧ method = "POST" then .chat
  else if path = "/voice" ∧ method = "POST" then .voice
  else if path = "/search" ∧ method = "POST" then .search
  else if path = "/config" ∧ method = "GET" then .configGet
  else if path = "/config" ∧ method = "PUT" then .configPut
  else if path = "/status" then .status
  else if path = "/mcp" ∧ method = "POST" then .mcp
  else if path.startsWith "/pow3r-pass/" then .pow3rPass
  else .notFound

/-- The JSON (or audio / empty) body of a worker response, by shape.  The
MCP protocol body is left abstract (`mcpBody`): no claim concerns its
content, only that the route is served. -/
inductive RespBody where
  | noBody
  | healthBody (agent : String) (version : String) (timestamp : Nat)
  | chatBody (r : ChatResponse)
  | audioBody (audio : String)
  | resultsBody (results : List KnowledgeChunk)
  | configBody (c : AgentConfig)
  | putConfigBody (success : Bool) (c : AgentConfig)
  | statusBody (agent : String) (sessions messages : Nat) (model tts : String)
  | mcpBody
  | tokenBody (token : String)
  | errorBody (error : String)
  | errorMsgBody (error message : String)
  deriving Repr, DecidableEq

/-- A worker HTTP response paired with the store state after the request:
(status code, body, store). -/
abbrev WorkerResult := Nat × RespBody × Store

/-- Everything a single `fetch` invocation consumes: the request line, the
parsed body fields for whichever route applies, the environment, the store,
the clock, the `crypto.randomUUID` value, and the external oracles. -/
structure WorkerInput where
  path : String
  method : String
  env : WEnv
  store : Store
  now : Nat
  uuid : String
  chatReq : ChatRequest
  voiceText : String
  voiceId : Option String
  searchQuery : String
  searchLimit : Option Nat
  putConfig : AgentConfig
  oracles : ExtOracles

/-- `GET /config`: return the stored config; when none exists, build the
default, persist it under `agent-config`, and return it. -/
def configGetHandler (env : WEnv) (store : Store) (now : Nat) : WorkerResult :=
  match store.agentConfig with
  | none =>
    let d := getDefaultConfig env now
    (200, .configBody d, { store with agentConfig := some d })
  | some c => (200, .configBody c, store)

/-- `PUT /config`: overwrite `lastUpdated` with the current time, persist,
and answer `{ success: true, config }`. -/
def configPutHandler (cfg : AgentConfig) (store : Store) (now : Nat) :
    WorkerResult :=
  let c := { cfg with lastUpdated := now }
  (200, .putConfigBody true c, { store with agentConfig := some c })

/-- `getAgentStats(env)` shaped into the `/status` response. -/
def statusHandler (env : WEnv) (store : Store) : WorkerResult :=
  (200,
   .statusBody (jsOrS env.agentName "Maxi")
     (parseStat store.statsSessions) (parseStat store.statsMessages)
     (jsOrS env.llmProvider "xai" ++ "/" ++ jsOrS env.llmModel "grok-2")
     (jsOrS env.ttsProvider "elevenlabs"),
   store)

/-- The worker's `fetch` entry point: CORS preflight, then the dispatch
table inside `try`, with any thrown error converted centrally to a 500
carrying `{ error: 'Internal server error', message }`.  In every route
that can throw, no store write precedes the throw, so the 500 branch
returns the incoming store. -/
def workerFetch (w : WorkerInput) : WorkerResult :=
  match dispatch w.path w.method with
  | .preflight => (200, .noBody, w.store)
  | .health =>
    (200, .healthBody (jsOrS w.env.agentName "Maxi") "1.0.0" w.now, w.store)
  | .chat =>
    match handleChat w.chatReq w.env w.store w.now w.uuid w.oracles with
    | .ok (r, st) => (200, .chatBody r, st)
    | .error msg => (500, .errorMsgBody "Internal server error" msg, w.store)
  | .voice =>
    match synthesizeVoice w.env (w.oracles.pow3r "elevenlabs") w.oracles.tts with
    | .ok audio => (200, .audioBody audio, w.store)
    | .error msg => (500, .errorMsgBody "Internal server error" msg, w.store)
  | .search =>
    (200,
     .resultsBody
       (searchKnowledge w.oracles.embed w.oracles.vecQuery w.oracles.kvText
         (jsOrNat w.searchLimit 5)),
     w.store)
  | .configGet => configGetHandler w.env w.store w.now
  | .configPut => configPutHandler w.putConfig w.store w.now
  | .status => statusHandler w.env w.store
  | .mcp => (200, .mcpBody, w.store)
  | .pow3rPass =>
    match w.oracles.pow3r (w.path.drop "/pow3r-pass/".length) with
    | some token => (200, .tokenBody token, w.store)
    | none => (404, .errorBody "Credential not found", w.store)
  | .notFound => (404, .errorBody "Not found", w.store)

/-! ## Concrete sample inputs used by witnesses and counterexamples -/

/-- A fully-populated environment. -/
def sampleEnv : WEnv :=
  { xaiApiKey := some "xk", elevenLabsApiKey := some "ek"
    agentName := some "Maxi", llmProvider := some "xai"
    llmModel := some "grok-2", ttsProvider := some "elevenlabs" }

/-- An empty store: no config record, no stats, no assets. -/
def sampleStore : Store :=
  { agentConfig := none, statsSessions := none, statsMessages := none
    assets := [] }

/-- Oracles in which every upstream call succeeds trivially. -/
def sampleOracles : ExtOracles :=
  { embed := .ok (), vecQuery := .ok [], kvText := fun _ => .ok none
    pow3r := fun _ => none, llm := .ok (some "hello") (some 10)
    tts := .ok "AUDIO" }

/-- A minimal chat request. -/
def sampleChatReq : ChatRequest :=
  { message := "hi", sessionId := none, includeVoice := false }

/-- A sample config record to PUT. -/
def sampleConfig : AgentConfig := getDefaultConfig sampleEnv 42

/-- A complete worker input for the given request line and oracles. -/
def mkInputO (path method : String) (o : ExtOracles) : WorkerInput :=
  { path := path, method := method, env := sampleEnv, store := sampleStore
    now := 0, uuid := "u-123", chatReq := sampleChatReq, voiceText := "hi"
    voiceId := none, searchQuery := "q", searchLimit := none
    putConfig := sampleConfig, oracles := o }

/-- A complete worker input with the benign sample oracles. -/
def mkInput (path method : String) : WorkerInput :=
  mkInputO path method sampleOracles

/-- C2: a `PUT /config` followed by a `GET /config` returns exactly the
stored record, whose persona, voice and capabilities fields equal those of
the value that was PUT; `lastUpdated` is overwritten with the PUT-time
timestamp, so across successive PUTs with a non-decreasing clock the stored
`lastUpdated` advances monotonically. -/
theorem config_put_get_roundtrip (w1 w2 : WorkerInput)
    (hp1 : w1.path = "/config") (hm1 : w1.method = "PUT")
    (hp2 : w2.path = "/config") (hm2 : w2.method = "GET")
    (hst : w2.store = (workerFetch w1).2.2) :
    (workerFetch w2 =
      (200, .configBody { w1.putConfig with lastUpdated := w1.now }, w2.store)) ∧
    ({ w1.putConfig with lastUpdated := w1.now }).persona = w1.putConfig.persona ∧
    ({ w1.putConfig with lastUpdated := w1.now }).voice = w1.putConfig.voice ∧
    ({ w1.putConfig with lastUpdated := w1.now }).capabilities
      = w1.putConfig.capabilities ∧
    (∀ w3 : WorkerInput, w3.path = "/config" → w3.method = "PUT" →
        w1.now ≤ w3.now →
        ∃ c3, (workerFetch w3).2.2.agentConfig = some c3 ∧
          ({ w1.putConfig with lastUpdated := w1.now }).lastUpdated
            ≤ c3.lastUpdated) := by
  have h1 : workerFetch w1 = configPutHandler w1.putConfig w1.store w1.now := by
    unfold workerFetch
    rw [hp1, hm1]
    rfl
  refine ⟨?_, rfl, rfl, rfl, ?_⟩
  · unfold workerFetch
    rw [hp2, hm2]
    have : dispatch "/config" "GET" = RouteTarget.configGet := by decide
    rw [this]
    rw [hst, h1]
    simp [configPutHandler, configGetHandler]
  · intro w3 hp3 hm3 hle
    have h3 : workerFetch w3 = configPutHandler w3.putConfig w3.store w3.now := by
      unfold workerFetch
      rw [hp3, hm3]
      rfl
    refine ⟨{ w3.putConfig with lastUpdated := w3.now }, ?_, ?_⟩
    · rw [h3]; rfl
    · simpa using hle

/-- Witness for C2 -/
theorem config_put_get_roundtrip_witness :
    workerFetch { mkInput "/config" "GET" with
        store := (workerFetch (mkInput "/config" "PUT")).2.2 }
      = (200, .configBody { sampleConfig with lastUpdated := 0 },
         (workerFetch (mkInput "/config" "PUT")).2.2) := by
  have h := config_put_get_roundtrip (mkInput "/config" "PUT")
    { mkInput "/config" "GET" with
        store := (workerFetch (mkInput "/config" "PUT")).2.2 }
    rfl rfl rfl rfl rfl
  exact h.1

/-- C10: `GET /config` with no stored record builds the default config,
persists it under `agent-config`, and returns it, so a second GET (no
intervening PUT) returns the same stored record without writing again; with
a record present, GET returns it unchanged and performs no write (the
resulting store equals the incoming store). -/
theorem config_get_creates_default (w : WorkerInput)
    (hp : w.path = "/config") (hm : w.method = "GET") :
    (w.store.agentConfig = none →
        workerFetch w =
          (200, .configBody (getDefaultConfig w.env w.now),
           { w.store with agentConfig := some (getDefaultConfig w.env w.now) }) ∧
        (∀ w2 : WorkerInput, w2.path = "/config" → w2.method = "GET" →
            w2.store = (workerFetch w).2.2 →
            workerFetch w2 =
              (200, .configBody (getDefaultConfig w.env w.now), w2.store))) ∧
    (∀ c, w.store.agentConfig = some c →
        workerFetch w = (200, .configBody c, w.store)) := by
  have hw : workerFetch w = configGetHandler w.env w.store w.now := by
    unfold workerFetch; rw [hp, hm]; rfl
  constructor
  · intro hnone
    have h1 : workerFetch w =
        (200, .configBody (getDefaultConfig w.env w.now),
         { w.store with agentConfig := some (getDefaultConfig w.env w.now) }) := by
      rw [hw]; unfold configGetHandler; rw [hnone]
    refine ⟨h1, ?_⟩
    intro w2 hp2 hm2 hst2
    have hw2 : workerFetch w2 = configGetHandler w2.env w2.store w2.now := by
      unfold workerFetch; rw [hp2, hm2]; rfl
    rw [hw2, hst2, h1]
    rfl
  · intro c hc
    rw [hw]; unfold configGetHandler; rw [hc]

/-- Witness for C10 -/
theorem config_get_creates_default_witness :
    workerFetch (mkInput "/config" "GET")
      = (200, .configBody (getDefaultConfig sampleEnv 0),
         { sampleStore with agentConfig := some (getDefaultConfig sampleEnv 0) }) ∧
    workerFetch { mkInput "/config" "GET" with
        store := (workerFetch (mkInput "/config" "GET")).2.2 }
      = (200, .configBody (getDefaultConfig sampleEnv 0),
         (workerFetch (mkInput "/config" "GET")).2.2) := by
  have h := (config_get_creates_default (mkInput "/config" "GET") rfl rfl).1 rfl
  exact ⟨h.1,
    h.2 { mkInput "/config" "GET" with
        store := (workerFetch (mkInput "/config" "GET")).2.2 } rfl rfl rfl⟩

/-- C6 (amended): a request matching none of the worker's dispatch guards
answers 404 with body `{error: 'Not found'}`.  The guards are wider than
the spec's eight path-and-method pairs: `OPTIONS` anywhere is a CORS
preflight; `/health`, `/`, `/status` and any `/pow3r-pass/`-prefixed path
match EVERY method; `/chat`, `/voice`, `/search`, `/mcp` require POST and
`/config` requires GET or PUT. -/
theorem unknown_route_404 (w : WorkerInput)
    (hopt : w.method ≠ "OPTIONS")
    (hh : w.path ≠ "/health") (hr : w.path ≠ "/")
    (hc : ¬(w.path = "/chat" ∧ w.method = "POST"))
    (hv : ¬(w.path = "/voice" ∧ w.method = "POST"))
    (hs : ¬(w.path = "/search" ∧ w.method = "POST"))
    (hcg : ¬(w.path = "/config" ∧ w.method = "GET"))
    (hcp : ¬(w.path = "/config" ∧ w.method = "PUT"))
    (hst : w.path ≠ "/status")
    (hm : ¬(w.path = "/mcp" ∧ w.method = "POST"))
    (hpw : w.path.startsWith "/pow3r-pass/" = false) :
    workerFetch w = (404, .errorBody "Not found", w.store) := by
  have hd : dispatch w.path w.method = .notFound := by
    unfold dispatch
    rw [if_neg hopt, if_neg (not_or.mpr ⟨hh, hr⟩), if_neg hc, if_neg hv,
        if_neg hs, if_neg hcg, if_neg hcp, if_neg hst, if_neg hm]
    simp [hpw]
  unfold workerFetch
  rw [hd]

/-- C6 counterexample: `POST /status` lies outside the spec's fixed table
(`/status` is listed as GET only) yet the worker serves it with 200 — the
`/status` branch never checks the method — refuting the claim that every
pair outside the table gets a 404. -/
theorem status_post_not_404 :
    (workerFetch (mkInput "/status" "POST")).1 = 200 ∧
    (workerFetch (mkInput "/status" "POST")).1 ≠ 404 := by decide

/-- C6 witness: the amended theorem applied to `GET /nope`, which matches
no guard and is answered 404 `{error: 'Not found'}`. -/
theorem unknown_route_404_witness :
    workerFetch (mkInput "/nope" "GET")
      = (404, .errorBody "Not found", sampleStore) :=
  unknown_route_404 (mkInput "/nope" "GET") (by decide) (by decide) (by decide)
    (by decide) (by decide) (by decide) (by decide) (by decide) (by decide)
    (by decide) (by decide)

/-- C3: if the embedding call, the similarity query, or any text-store
lookup throws, `searchKnowledge` returns `[]` instead of propagating the
error, and `POST /search` answers HTTP 200 with `{results: []}`. -/
theorem search_degrades_empty (w : WorkerInput)
    (hp : w.path = "/search") (hm : w.method = "POST")
    (hfail : (∃ e, w.oracles.embed = .error e) ∨
             (∃ e, w.oracles.vecQuery = .error e) ∨
             (∃ ms e, w.oracles.vecQuery = .ok ms ∧
                lookupChunks w.oracles.kvText ms = .error e)) :
    searchKnowledge w.oracles.embed w.oracles.vecQuery w.oracles.kvText
        (jsOrNat w.searchLimit 5) = [] ∧
    workerFetch w = (200, .resultsBody [], w.store) := by
  have hempty : searchKnowledge w.oracles.embed w.oracles.vecQuery
      w.oracles.kvText (jsOrNat w.searchLimit 5) = [] := by
    unfold searchKnowledge
    rcases hfail with ⟨e, he⟩ | ⟨e, he⟩ | ⟨ms, e, hq, hl⟩
    · rw [he]
    · cases hem : w.oracles.embed with
      | error _ => rfl
      | ok _ => rw [he]
    · cases hem : w.oracles.embed with
      | error _ => rfl
      | ok _ => simp [hq, hl]
  refine ⟨hempty, ?_⟩
  unfold workerFetch
  rw [hp, hm]
  have hd : dispatch "/search" "POST" = RouteTarget.search := by decide
  rw [hd, hempty]

/-- Sample oracles where the embedding call throws. -/
def searchFailOracles : ExtOracles :=
  { sampleOracles with embed := .error "embedding failed" }

/-- C3 witness: a `POST /search` whose embedding call throws is answered
200 with an empty result list. -/
theorem search_degrades_empty_witness :
    workerFetch (mkInputO "/search" "POST" searchFailOracles)
      = (200, .resultsBody [], sampleStore) :=
  (search_degrades_empty (mkInputO "/search" "POST" searchFailOracles) rfl rfl
    (Or.inl ⟨"embedding failed", rfl⟩)).2

/-- A match id resolves to non-empty text in the KV store. -/
def resolvedNonEmpty (kvText : String → Except String (Option String))
    (m : VecMatch) : Bool :=
  match kvText m.id with
  | .ok (some t) => decide (t ≠ "")
  | _ => false

theorem searchKnowledge_ok (u : Unit) (ms : List VecMatch)
    (kvText : String → Except String (Option String)) (limit : Nat) :
    searchKnowledge (.ok u) (.ok ms) kvText limit =
      match lookupChunks kvText ms with
      | .error _ => []
      | .ok chunks => chunks.filter fun k => k.text ≠ "" := rfl

theorem lookupChunks_length (kvText : String → Except String (Option String)) :
    ∀ (ms : List VecMatch) (cs : List KnowledgeChunk),
      lookupChunks kvText ms = .ok cs → cs.length = ms.length := by
  intro ms
  induction ms with
  | nil =>
    intro cs h
    simp [lookupChunks] at h
    simp [← h]
  | cons m ms ih =>
    intro cs h
    unfold lookupChunks at h
    cases hc : lookupChunk kvText m with
    | error e => rw [hc] at h; cases h
    | ok c =>
      rw [hc] at h
      cases hcs : lookupChunks kvText ms with
      | error e => rw [hcs] at h; cases h
      | ok cs' =>
        rw [hcs] at h
        injection h with h'
        subst h'
        simp [ih cs' hcs]

theorem lookupChunks_all_ok (kvText : String → Except String (Option String)) :
    ∀ ms : List VecMatch, (∀ m ∈ ms, (kvText m.id).isOk = true) →
      ∃ cs, lookupChunks kvText ms = .ok cs ∧
        (cs.filter fun k => k.text ≠ "").length
          = ms.countP (resolvedNonEmpty kvText) := by
  intro ms
  induction ms with
  | nil => intro _; exact ⟨[], rfl, by simp⟩
  | cons m ms ih =>
    intro h
    have hm := h m (List.mem_cons_self _ _)
    obtain ⟨cs, hcs, hlen⟩ := ih fun x hx => h x (List.mem_cons_of_mem _ hx)
    cases hk : kvText m.id with
    | error e => rw [hk] at hm; simp [Except.isOk, Except.toBool] at hm
    | ok t =>
      refine ⟨⟨m.id, t.getD "", m.score⟩ :: cs, ?_, ?_⟩
      · unfold lookupChunks
        simp [lookupChunk, Except.map, hk, hcs]
      · rw [List.countP_cons]
        simp only [List.filter_cons]
        cases t with
        | none =>
          simp [resolvedNonEmpty, hk]
          simpa using hlen
        | some s =>
          by_cases hs : s = ""
          · subst hs
            simp [resolvedNonEmpty, hk]
            simpa using hlen
          · simp [resolvedNonEmpty, hk, hs]
            simpa using hlen

/-- C8: every element of a `searchKnowledge` result has non-empty text
(matches whose id resolves to a missing or empty entry are filtered out);
when the vector index honours its top-K contract (at most `limit` matches)
the result length is at most `limit`; and when every lookup succeeds the
result length is exactly the number of matches resolving to non-empty
text. -/
theorem searchKnowledge_nonempty_text (embed : Except String Unit)
    (vecQuery : Except String (List VecMatch))
    (kvText : String → Except String (Option String)) (limit : Nat) :
    (∀ c ∈ searchKnowledge embed vecQuery kvText limit, c.text ≠ "") ∧
    (∀ ms, vecQuery = .ok ms → ms.length ≤ limit →
        (searchKnowledge embed vecQuery kvText limit).length ≤ limit) ∧
    (∀ ms, embed = .ok () → vecQuery = .ok ms →
        (∀ m ∈ ms, (kvText m.id).isOk = true) →
        (searchKnowledge embed vecQuery kvText limit).length
          = ms.countP (resolvedNonEmpty kvText)) := by
  refine ⟨?_, ?_, ?_⟩
  · intro c hc
    cases embed with
    | error e => simp [searchKnowledge] at hc
    | ok u =>
      cases vecQuery with
      | error e => simp [searchKnowledge] at hc
      | ok ms =>
        rw [searchKnowledge_ok] at hc
        cases hl : lookupChunks kvText ms with
        | error e => rw [hl] at hc; simp at hc
        | ok cs =>
          rw [hl] at hc
          simp only [List.mem_filter, decide_eq_true_eq] at hc
          exact hc.2
  · intro ms hq hle
    subst hq
    cases embed with
    | error e => simp [searchKnowledge]
    | ok u =>
      rw [searchKnowledge_ok]
      cases hl : lookupChunks kvText ms with
      | error e => simp
      | ok cs =>
        calc (cs.filter fun k => k.text ≠ "").length
            ≤ cs.length := List.length_filter_le _ _
          _ = ms.length := lookupChunks_length kvText ms cs hl
          _ ≤ limit := hle
  · intro ms hem hq hok
    obtain ⟨cs, hcs, hlen⟩ := lookupChunks_all_ok kvText ms hok
    subst hem
    subst hq
    rw [searchKnowledge_ok, hcs]
    exact hlen

/-- Sample knowledge KV store for the C8 witness. -/
def sampleKvText (id : String) : Except String (Option String) :=
  if id == "a" then .ok (some "textA") else .ok none

/-- C8 witness: concrete two-match query where id `a` resolves to text
and id `b` does not — the result keeps exactly the resolvable match. -/
theorem searchKnowledge_nonempty_text_witness :
    searchKnowledge (.ok ()) (.ok [⟨"a", 5⟩, ⟨"b", 3⟩]) sampleKvText 2
      = [⟨"a", "textA", 5⟩] ∧
    (searchKnowledge (.ok ()) (.ok [⟨"a", 5⟩, ⟨"b", 3⟩]) sampleKvText 2).length
      ≤ 2 ∧
    (searchKnowledge (.ok ()) (.ok [⟨"a", 5⟩, ⟨"b", 3⟩]) sampleKvText 2).length
      = List.countP (resolvedNonEmpty sampleKvText) [⟨"a", 5⟩, ⟨"b", 3⟩] := by
  have h := searchKnowledge_nonempty_text (.ok ()) (.ok [⟨"a", 5⟩, ⟨"b", 3⟩])
    sampleKvText 2
  exact ⟨by decide, h.2.1 _ rfl (by decide), h.2.2 _ rfl rfl (by decide)⟩

theorem handleChat_no_key (req : ChatRequest) (env : WEnv) (store : Store)
    (now : Nat) (uuid : String) (o : ExtOracles)
    (h : jsFalsy (jsOrOpt env.xaiApiKey (o.pow3r "xai")) = true) :
    handleChat req env store now uuid o
      = .error "No API key configured. Please add XAI_API_KEY via Pow3r Pass." := by
  unfold handleChat
  simp [h]

theorem handleChat_ok_shape (req : ChatRequest) (env : WEnv) (store : Store)
    (now : Nat) (uuid : String) (o : ExtOracles)
    (content : Option String) (tokens : Option Nat)
    (hkey : jsFalsy (jsOrOpt env.xaiApiKey (o.pow3r "xai")) = false)
    (hllm : o.llm = .ok content tokens) :
    handleChat req env store now uuid o =
      .ok
        ({ text := content.getD ""
           audioUrl :=
             (chatVoiceStep
               (req.includeVoice
                 && ((store.agentConfig).getD (getDefaultConfig env now)).voice.enabled)
               env (o.pow3r "elevenlabs") o.tts (jsOrS req.sessionId uuid) now
               (incrementStat store)).1
           sessionId := jsOrS req.sessionId uuid
           metadata :=
             { model := jsOrS env.llmModel "grok-2"
               tokensUsed := tokens.getD 0
               retrievalCount :=
                 (searchKnowledge o.embed o.vecQuery o.kvText 5).length } },
         (chatVoiceStep
           (req.includeVoice
             && ((store.agentConfig).getD (getDefaultConfig env now)).voice.enabled)
           env (o.pow3r "elevenlabs") o.tts (jsOrS req.sessionId uuid) now
           (incrementStat store)).2) := by
  unfold handleChat
  simp [hkey, hllm, callLLM]

/-- C4: when no LLM token is resolvable from `XAI_API_KEY` or from the
Pow3r Pass credential service, `handleChat` throws
`No API key configured. Please add XAI_API_KEY via Pow3r Pass.` and the
`POST /chat` response is a 500 carrying that error message — never a
silent empty message. -/
theorem chat_missing_key_reported (w : WorkerInput)
    (hp : w.path = "/chat") (hm : w.method = "POST")
    (h1 : jsFalsy w.env.xaiApiKey = true)
    (h2 : jsFalsy (w.oracles.pow3r "xai") = true) :
    handleChat w.chatReq w.env w.store w.now w.uuid w.oracles
      = .error "No API key configured. Please add XAI_API_KEY via Pow3r Pass." ∧
    workerFetch w
      = (500, .errorMsgBody "Internal server error"
          "No API key configured. Please add XAI_API_KEY via Pow3r Pass.",
         w.store) := by
  have hkey : jsFalsy (jsOrOpt w.env.xaiApiKey (w.oracles.pow3r "xai"))
      = true := by
    cases hx : w.env.xaiApiKey with
    | none => simpa [jsOrOpt] using h2
    | some s =>
      rw [hx] at h1
      simp only [jsFalsy] at h1
      simp [jsOrOpt, h1, h2]
  have he := handleChat_no_key w.chatReq w.env w.store w.now w.uuid w.oracles hkey
  refine ⟨he, ?_⟩
  unfold workerFetch
  rw [hp, hm]
  have hd : dispatch "/chat" "POST" = RouteTarget.chat := by decide
  rw [hd, he]

/-- env without any LLM key. -/
def noKeyEnv : WEnv := { sampleEnv with xaiApiKey := none }

/-- A /chat input with no LLM key resolvable. -/
def noKeyChatInput : WorkerInput := { mkInput "/chat" "POST" with env := noKeyEnv }

/-- C4 witness: a `POST /chat` with `XAI_API_KEY` unset and the remote
credential service returning nothing is answered 500 with the reported
message. -/
theorem chat_missing_key_reported_witness :
    workerFetch noKeyChatInput
      = (500, .errorMsgBody "Internal server error"
          "No API key configured. Please add XAI_API_KEY via Pow3r Pass.",
         sampleStore) :=
  (chat_missing_key_reported noKeyChatInput rfl rfl (by decide) (by decide)).2

/-- C5: a successful chat response carries
`metadata.retrievalCount` equal to the length of the list returned by
`searchKnowledge` — the very list from which the LLM context string is
built. -/
theorem chat_retrievalCount (req : ChatRequest) (env : WEnv) (store : Store)
    (now : Nat) (uuid : String) (o : ExtOracles) (resp : ChatResponse)
    (st : Store)
    (h : handleChat req env store now uuid o = .ok (resp, st)) :
    resp.metadata.retrievalCount
      = (searchKnowledge o.embed o.vecQuery o.kvText 5).length := by
  by_cases hk : jsFalsy (jsOrOpt env.xaiApiKey (o.pow3r "xai")) = true
  · rw [handleChat_no_key req env store now uuid o hk] at h; cases h
  · have hk' : jsFalsy (jsOrOpt env.xaiApiKey (o.pow3r "xai")) = false := by
      simpa using hk
    cases hll : o.llm with
    | netError m =>
      unfold handleChat at h
      simp [hk', hll, callLLM] at h
    | non2xx s =>
      unfold handleChat at h
      simp [hk', hll, callLLM] at h
    | ok c t =>
      rw [handleChat_ok_shape req env store now uuid o c t hk' hll] at h
      injection h with h'
      injection h' with hresp hst
      rw [← hresp]

/-- C5 witness: a concrete successful chat reports a `retrievalCount`
equal to the length of its `searchKnowledge` result. -/
theorem chat_retrievalCount_witness :
    (handleChat sampleChatReq sampleEnv sampleStore 0 "u-123" sampleOracles).map
      (fun p => p.1.metadata.retrievalCount)
      = .ok ((searchKnowledge sampleOracles.embed sampleOracles.vecQuery
          sampleOracles.kvText 5).length) := by
  cases hr : handleChat sampleChatReq sampleEnv sampleStore 0 "u-123"
      sampleOracles with
  | error e =>
    have hok : (handleChat sampleChatReq sampleEnv sampleStore 0 "u-123"
        sampleOracles).isOk = true := by decide
    rw [hr] at hok
    simp [Except.isOk, Except.toBool] at hok
  | ok p =>
    have h := chat_retrievalCount sampleChatReq sampleEnv sampleStore 0 "u-123"
      sampleOracles p.1 p.2 (by rw [hr])
    simp [Except.map, h]

/-- C9 (amended): the chat response always carries a sessionId (the field
is total): it equals the supplied sessionId whenever a NON-EMPTY one is
supplied, and is the freshly generated UUID when the request omits it or
supplies the empty string (which JavaScript `||` treats as falsy). -/
theorem chat_sessionId_spec (req : ChatRequest) (env : WEnv) (store : Store)
    (now : Nat) (uuid : String) (o : ExtOracles) (resp : ChatResponse)
    (st : Store)
    (h : handleChat req env store now uuid o = .ok (resp, st)) :
    (∀ s, req.sessionId = some s → s ≠ "" → resp.sessionId = s) ∧
    ((req.sessionId = none ∨ req.sessionId = some "") →
        resp.sessionId = uuid) := by
  have hsid : resp.sessionId = jsOrS req.sessionId uuid := by
    by_cases hk : jsFalsy (jsOrOpt env.xaiApiKey (o.pow3r "xai")) = true
    · rw [handleChat_no_key req env store now uuid o hk] at h; cases h
    · have hk' : jsFalsy (jsOrOpt env.xaiApiKey (o.pow3r "xai")) = false := by
        simpa using hk
      cases hll : o.llm with
      | netError m =>
        unfold handleChat at h
        simp [hk', hll, callLLM] at h
      | non2xx s =>
        unfold handleChat at h
        simp [hk', hll, callLLM] at h
      | ok c t =>
        rw [handleChat_ok_shape req env store now uuid o c t hk' hll] at h
        injection h with h'
        injection h' with hresp hst
        rw [← hresp]
  constructor
  · intro s hs hne
    rw [hsid, hs]
    simp [jsOrS, hne]
  · intro hs
    rcases hs with hs | hs <;> rw [hsid, hs] <;> simp [jsOrS]

/-- A chat request supplying the empty string as sessionId. -/
def emptySessionReq : ChatRequest :=
  { message := "hi", sessionId := some "", includeVoice := false }

/-- A chat request supplying a non-empty sessionId. -/
def namedSessionReq : ChatRequest :=
  { message := "hi", sessionId := some "sess-1", includeVoice := false }

/-- C9 counterexample: a supplied sessionId that is the empty string is
falsy, so `request.sessionId || crypto.randomUUID()` discards it and the
response carries a fresh UUID instead of the supplied value. -/
theorem chat_sessionId_counterexample :
    (handleChat emptySessionReq sampleEnv sampleStore 0 "u-123"
        sampleOracles).map (fun p => p.1.sessionId) = .ok "u-123" ∧
    ("u-123" : String) ≠ "" := by
  constructor
  · rfl
  · decide

/-- C9 witness: a chat supplying `sess-1` gets `sess-1` back as its
response sessionId. -/
theorem chat_sessionId_spec_witness :
    (handleChat namedSessionReq sampleEnv sampleStore 0 "u-123"
        sampleOracles).map (fun p => p.1.sessionId) = .ok "sess-1" := by
  cases hr : handleChat namedSessionReq sampleEnv sampleStore 0 "u-123"
      sampleOracles with
  | error e =>
    have hok : (handleChat namedSessionReq sampleEnv sampleStore 0 "u-123"
        sampleOracles).isOk = true := by decide
    rw [hr] at hok
    simp [Except.isOk, Except.toBool] at hok
  | ok p =>
    have h := (chat_sessionId_spec namedSessionReq sampleEnv sampleStore 0
      "u-123" sampleOracles p.1 p.2 (by rw [hr])).1 "sess-1" rfl (by decide)
    simp [Except.map, h]

theorem synthesizeVoice_non2xx_isError (env : WEnv) (pw : Option String)
    (s : Nat) :
    ∃ m, synthesizeVoice env pw (.non2xx s) = .error m := by
  unfold synthesizeVoice
  by_cases h : jsFalsy (jsOrOpt env.elevenLabsApiKey pw) = true
  · exact ⟨"No ElevenLabs API key configured", by simp [h]⟩
  · have h' : jsFalsy (jsOrOpt env.elevenLabsApiKey pw) = false := by
      simpa using h
    exact ⟨"ElevenLabs API error: " ++ toString s, by simp [h']⟩

theorem chatVoiceStep_non2xx_noAudio (cond : Bool) (env : WEnv)
    (pw : Option String) (sid : String) (now : Nat) (st1 : Store) (s : Nat) :
    (chatVoiceStep cond env pw (.non2xx s) sid now st1).1 = none := by
  obtain ⟨m, hm⟩ := synthesizeVoice_non2xx_isError env pw s
  cases cond with
  | false => rfl
  | true => simp [chatVoiceStep, hm]

/-- C7 (amended): when the hosted TTS endpoint answers non-2xx,
`synthesizeVoice` throws `ElevenLabs API error: {status}`; the `/voice`
endpoint surfaces that as a generic 500 carrying the raw message; but the
voice branch of `/chat` CATCHES the failure and answers 200 with no
`audioUrl` — the chat path swallows the TTS failure instead of surfacing
a 500. -/
theorem tts_failure_propagation (w : WorkerInput) (s : Nat)
    (htts : w.oracles.tts = .non2xx s) :
    (jsFalsy (jsOrOpt w.env.elevenLabsApiKey (w.oracles.pow3r "elevenlabs"))
        = false →
      synthesizeVoice w.env (w.oracles.pow3r "elevenlabs") w.oracles.tts
        = .error ("ElevenLabs API error: " ++ toString s)) ∧
    (w.path = "/voice" → w.method = "POST" →
      jsFalsy (jsOrOpt w.env.elevenLabsApiKey (w.oracles.pow3r "elevenlabs"))
        = false →
      workerFetch w
        = (500, .errorMsgBody "Internal server error"
            ("ElevenLabs API error: " ++ toString s), w.store)) ∧
    (w.path = "/chat" → w.method = "POST" →
      w.chatReq.includeVoice = true →
      ((w.store.agentConfig).getD
          (getDefaultConfig w.env w.now)).voice.enabled = true →
      jsFalsy (jsOrOpt w.env.xaiApiKey (w.oracles.pow3r "xai")) = false →
      ∀ c t, w.oracles.llm = .ok c t →
      ∃ p : ChatResponse × Store,
        handleChat w.chatReq w.env w.store w.now w.uuid w.oracles = .ok p ∧
        workerFetch w = (200, .chatBody p.1, p.2) ∧
        p.1.audioUrl = none) := by
  have hsv : jsFalsy (jsOrOpt w.env.elevenLabsApiKey
      (w.oracles.pow3r "elevenlabs")) = false →
      synthesizeVoice w.env (w.oracles.pow3r "elevenlabs") w.oracles.tts
        = .error ("ElevenLabs API error: " ++ toString s) := by
    intro hkey
    rw [htts]
    unfold synthesizeVoice
    simp [hkey]
  refine ⟨hsv, ?_, ?_⟩
  · intro hp hm hkey
    unfold workerFetch
    rw [hp, hm]
    have hd : dispatch "/voice" "POST" = RouteTarget.voice := by decide
    rw [hd, hsv hkey]
  · intro hp hm hiv hen hkey c t hllm
    have hshape := handleChat_ok_shape w.chatReq w.env w.store w.now w.uuid
      w.oracles c t hkey hllm
    refine ⟨_, hshape, ?_, ?_⟩
    · unfold workerFetch
      rw [hp, hm]
      have hd : dispatch "/chat" "POST" = RouteTarget.chat := by decide
      rw [hd, hshape]
    · rw [htts]
      exact chatVoiceStep_non2xx_noAudio _ _ _ _ _ _ s

/-- Oracles in which the TTS endpoint answers 502. -/
def ttsFailOracles : ExtOracles := { sampleOracles with tts := .non2xx 502 }

/-- A chat request asking for voice. -/
def voiceChatReq : ChatRequest :=
  { message := "hi", sessionId := none, includeVoice := true }

/-- A /chat input with voice requested and a failing TTS upstream. -/
def chatTtsFailInput : WorkerInput :=
  { mkInputO "/chat" "POST" ttsFailOracles with chatReq := voiceChatReq }

/-- A /voice input with a failing TTS upstream. -/
def voiceTtsFailInput : WorkerInput := mkInputO "/voice" "POST" ttsFailOracles

/-- C7 counterexample: with the TTS upstream failing (HTTP 502), a chat
request that asked for voice still answers 200 — the chat voice branch
swallows the TTS failure instead of surfacing a 500. -/
theorem chat_tts_failure_not_500 :
    (workerFetch chatTtsFailInput).1 = 200 ∧
    (workerFetch chatTtsFailInput).1 ≠ 500 := by
  constructor
  · rfl
  · decide

/-- C7 witness: a `POST /voice` against a TTS upstream answering 502 is
surfaced as a 500 with the raw `ElevenLabs API error: 502` message. -/
theorem tts_failure_propagation_witness :
    workerFetch voiceTtsFailInput
      = (500, .errorMsgBody "Internal server error"
          ("ElevenLabs API error: " ++ toString 502), sampleStore) :=
  (tts_failure_propagation voiceTtsFailInput 502 rfl).2.1 rfl rfl (by decide)
